import Mathlib

/-!
Verification of the Media Sanitization Certificate backend (`src/main.py`).

The development shallowly embeds the request handlers of the FastAPI service:
JSON values, Python truthiness, the `dict.get` / `or`-chain field resolution,
the PDF cell rendering, the UUID4 string generation, and the four protected
HTTP endpoints with their storage/database side effects modelled as an
explicit effect trace over an environment (`World`) that supplies the
responses of the external Supabase backend.
-/

/-- JSON values as handled by the Python service (floats do not occur in the
    verified paths; numbers are modelled as integers). Objects are
    association lists with the lookup of the first binding. -/
inductive JValue where
  | null
  | bool (b : Bool)
  | num (n : Int)
  | str (s : String)
  | list (xs : List JValue)
  | obj (kvs : List (String × JValue))

/-- Python truthiness: `None`, `False`, `0`, `""`, `[]`, and `{}` are falsy. -/
def truthy : JValue → Bool
  | .null => false
  | .bool b => b
  | .num n => n != 0
  | .str s => s != ""
  | .list xs => !xs.isEmpty
  | .obj kvs => !kvs.isEmpty

/-- The single-quote character used by Python `repr` of strings and by
    `str(KeyError(...))`. -/
def pyQuote : String := String.singleton (Char.ofNat 39)

mutual
/-- Python `repr` of a JSON value. -/
def pyRepr : JValue → String
  | .null => "None"
  | .bool true => "True"
  | .bool false => "False"
  | .num n => toString n
  | .str s => pyQuote ++ s ++ pyQuote
  | .list xs => "[" ++ pyReprList xs ++ "]"
  | .obj kvs => "\x7b" ++ pyReprObj kvs ++ "\x7d"
/-- Comma-separated `repr`s of list elements. -/
def pyReprList : List JValue → String
  | [] => ""
  | [x] => pyRepr x
  | x :: xs => pyRepr x ++ ", " ++ pyReprList xs
/-- Comma-separated `repr`s of dict entries. -/
def pyReprObj : List (String × JValue) → String
  | [] => ""
  | [(k, v)] => pyQuote ++ k ++ pyQuote ++ ": " ++ pyRepr v
  | (k, v) :: kvs => pyQuote ++ k ++ pyQuote ++ ": " ++ pyRepr v ++ ", " ++ pyReprObj kvs
end

/-- Python `str` of a JSON value (`str` on a string is the identity, on other
    values it agrees with `repr`). -/
def pyStr : JValue → String
  | .str s => s
  | v => pyRepr v

/-- Python type names, for exception messages. -/
def typeName : JValue → String
  | .null => "NoneType"
  | .bool _ => "bool"
  | .num _ => "int"
  | .str _ => "str"
  | .list _ => "list"
  | .obj _ => "dict"

/-- Message `str(AttributeError(...))` raised by attribute access on the wrong type. -/
def noAttr (tyName attr : String) : String :=
  pyQuote ++ tyName ++ pyQuote ++ " object has no attribute " ++ pyQuote ++ attr ++ pyQuote

/-- Message `str(KeyError(k))` is the `repr` of the missing key. -/
def keyErrorStr (k : String) : String := pyQuote ++ k ++ pyQuote

/-- Python `dict.get(key, default)` on a value known to be a dict. -/
def getKV (kvs : List (String × JValue)) (key : String) (dflt : JValue) : JValue :=
  match kvs.lookup key with
  | some v => v
  | none => dflt

/-- Python `value.get(key, default)`: succeeds on dicts, raises `AttributeError`
    on every other type. -/
def pyGet (v : JValue) (key : String) (dflt : JValue) : Except String JValue :=
  match v with
  | .obj kvs => .ok (getKV kvs key dflt)
  | other => .error (noAttr (typeName other) "get")

/-- Python `value[key]` with a string key: dict lookup (`KeyError` when missing),
    type errors elsewhere. -/
def pyIndex (v : JValue) (key : String) : Except String JValue :=
  match v with
  | .obj kvs =>
      match kvs.lookup key with
      | some x => .ok x
      | none => .error (keyErrorStr key)
  | .list _ => .error "list indices must be integers or slices, not str"
  | .str _ => .error "string indices must be integers"
  | other => .error (pyQuote ++ typeName other ++ pyQuote ++ " object is not subscriptable")

/-- Python `len`, defined on sized values only. -/
def pyLen (v : JValue) : Except String Nat :=
  match v with
  | .str s => .ok s.length
  | .list xs => .ok xs.length
  | .obj kvs => .ok kvs.length
  | other => .error ("object of type " ++ pyQuote ++ typeName other ++ pyQuote ++ " has no len()")

/-- Python `value[0]`. -/
def pyFirst (v : JValue) : Except String JValue :=
  match v with
  | .list (x :: _) => .ok x
  | .list [] => .error "list index out of range"
  | .str s =>
      match s.data with
      | c :: _ => .ok (.str (String.singleton c))
      | [] => .error "string index out of range"
  | .obj _ => .error "0"
  | other => .error (pyQuote ++ typeName other ++ pyQuote ++ " object is not subscriptable")

/-- Python `", ".join(value)`: joins list elements (which must be strings), the
    characters of a string, or the keys of a dict. -/
def pyJoinComma (v : JValue) : Except String String :=
  match v with
  | .list xs =>
      match xs.mapM (fun x => match x with
        | .str s => Except.ok s
        | other => Except.error ("sequence item 0: expected str instance, " ++
            typeName other ++ " found")) with
      | .ok strs => .ok (String.intercalate ", " strs)
      | .error m => .error m
  | .str s => .ok (String.intercalate ", " (s.data.map String.singleton))
  | .obj kvs => .ok (String.intercalate ", " (kvs.map (fun kv => kv.1)))
  | other => .error ("can only join an iterable of strings, not " ++ typeName other)

/-- The `get_value` helper of `generate_certificate_pdf` (`main.py` 199-203):
    on a dict, a present truthy value is rendered with `str`, a present falsy
    value and a missing key both yield the default; on a non-dict the default
    is returned. -/
def get_value (obj : JValue) (key : String) (dflt : String) : String :=
  match obj with
  | .obj kvs =>
      match kvs.lookup key with
      | some v => if truthy v then pyStr v else dflt
      | none => dflt
  | _ => dflt

/-- The helper `get_value` with its default default `'N/A'`. -/
def gv (obj : JValue) (key : String) : String := get_value obj key "N/A"

/-- The tail of a fallback chain `data.get(top) or data.get(sec, {}).get(nested) or dflt`:
    the nested lookup (an `AttributeError` when the section is present but not
    a dict), then the sentinel default when the chain has one. -/
def nestedOrDefault (dataObj : List (String × JValue)) (sec nested : String)
    (dflt : Option String) : Except String JValue :=
  match pyGet (getKV dataObj sec (.obj [])) nested .null with
  | .error m => .error m
  | .ok b =>
      if truthy b then .ok b
      else
        match dflt with
        | some d => .ok (.str d)
        | none => .ok b

/-- A full fallback chain `data.get(top) or data.get(sec, {}).get(nested) [or dflt]`
    as written at `main.py` 470-474, 490-500 and 510-516.  Python `or`
    short-circuits on a truthy left operand. -/
def resolveChain (dataObj : List (String × JValue)) (top sec nested : String)
    (dflt : Option String) : Except String JValue :=
  let a := getKV dataObj top .null
  if truthy a then .ok a else nestedOrDefault dataObj sec nested dflt

/-- The `passes_performed` rendering (`main.py` 344-345): the list length as a
    string when truthy, otherwise `'N/A'`. -/
def passesCountOf (sanitizationDetails : JValue) : Except String String := do
  let passes ← pyGet sanitizationDetails "passes_performed" (.list [])
  if truthy passes then
    let n ← pyLen passes
    pure (toString n)
  else
    pure "N/A"

/-- The `tools_used` rendering (`main.py` 370-371): comma-joined when truthy,
    otherwise `'N/A'`. -/
def toolsStrOf (hostInfo : JValue) : Except String String := do
  let tools ← pyGet hostInfo "tools_used" (.list [])
  if truthy tools then pyJoinComma tools else pure "N/A"

/-- The label/value cells of the generated PDF, in document order
    (`generate_certificate_pdf`, `main.py` 229-427).  The empty label/value
    pairs model the blank filler paragraphs of the fixed 4-column layout. -/
def pdfCells (dataObj : List (String × JValue)) (certificate_id : String) :
    Except String (List (String × String)) := do
  let cert_metadata := getKV dataObj "certificate_metadata" (.obj [])
  let tool_info := getKV dataObj "tool_information" (.obj [])
  let sanitization_event := getKV dataObj "sanitization_event" (.obj [])
  let media_info := getKV dataObj "media_information" (.obj [])
  let sanitization_details := getKV dataObj "sanitization_details" (.obj [])
  let host_info := getKV dataObj "host_system_information" (.obj [])
  let compliance_info := getKV dataObj "compliance_information" (.obj [])
  let operator ← pyGet sanitization_event "operator" (.obj [])
  let passes_count ← passesCountOf sanitization_details
  let tools_str ← toolsStrOf host_info
  pure [("Certificate ID:", get_value cert_metadata "certificate_id" certificate_id),
        ("Generated Timestamp:", gv cert_metadata "generated_timestamp"),
        ("Version:", gv cert_metadata "version"),
        ("NIST Reference:", gv cert_metadata "nist_reference"),
        ("Name:", gv tool_info "name"),
        ("Version:", gv tool_info "version"),
        ("Method:", gv tool_info "method"),
        ("Technique:", gv tool_info "technique"),
        ("Verification Method:", gv tool_info "verification_method"),
        ("", ""),
        ("Timestamp:", gv sanitization_event "timestamp"),
        ("Status:", gv sanitization_event "status"),
        ("System User:", gv operator "system_user"),
        ("Hostname:", gv operator "hostname"),
        ("Device Path:", gv media_info "device_path"),
        ("Manufacturer:", gv media_info "manufacturer"),
        ("Model:", gv media_info "model"),
        ("Serial Number:", gv media_info "serial_number"),
        ("Firmware Version:", gv media_info "firmware_version"),
        ("Interface Type:", gv media_info "interface_type"),
        ("Media Type:", gv media_info "media_type"),
        ("Device Type:", gv media_info "device_type"),
        ("Capacity (GB):", gv media_info "capacity_gb"),
        ("Capacity (Bytes):", gv media_info "capacity_bytes"),
        ("Pre-Sanitization Class:", gv media_info "pre_sanitization_classification"),
        ("Post-Sanitization Class:", gv media_info "post_sanitization_classification"),
        ("Passes Performed:", passes_count),
        ("Verification Status:", gv sanitization_details "verification_status"),
        ("Verification Details:", gv sanitization_details "verification_details"),
        ("", ""),
        ("Hostname:", gv host_info "hostname"),
        ("Operating System:", gv host_info "operating_system"),
        ("Kernel Version:", gv host_info "kernel_version"),
        ("Architecture:", gv host_info "architecture"),
        ("System Manufacturer:", gv host_info "system_manufacturer"),
        ("System Model:", gv host_info "system_model"),
        ("System Serial:", gv host_info "system_serial"),
        ("Execution Environment:", gv host_info "execution_environment"),
        ("Tools Used:", tools_str),
        ("", ""),
        ("Standard:", gv compliance_info "standard"),
        ("Sanitization Method:", gv compliance_info "sanitization_method"),
        ("Residual Risk Assessment:", gv compliance_info "residual_risk_assessment"),
        ("Recommended Follow-up:", gv compliance_info "recommended_follow_up")]

/-- Lowercase hex digit of a nibble. -/
def hexDigit (n : Nat) : Char :=
  Char.ofNat (if n < 10 then 48 + n else 87 + n)

/-- The `k` lowercase hex digits of `v`, most significant first. -/
def hexNibbles : Nat → Nat → List Char
  | _, 0 => []
  | v, k + 1 => hexDigit (v / 16 ^ k % 16) :: hexNibbles (v % 16 ^ k) k

/-- Force the UUID version nibble (bits 76-79) to `0100`. -/
def uuidSetVersion (x : Nat) : Nat :=
  x / 2 ^ 80 * 2 ^ 80 + 4 * 2 ^ 76 + x % 2 ^ 76

/-- Force the UUID variant bits (62-63) to `10`. -/
def uuidSetVariant (x : Nat) : Nat :=
  x / 2 ^ 64 * 2 ^ 64 + 2 * 2 ^ 62 + x % 2 ^ 62

/-- Python `uuid.uuid4()` takes a 128-bit random draw and forces the version nibble
    and the variant bits. -/
def uuidMask (r : Nat) : Nat :=
  uuidSetVariant (uuidSetVersion (r % 2 ^ 128))

/-- Rendering `str(uuid.uuid4())` for the 128-bit draw `r`: the 32 hex digits of the
    masked value in groups of 8-4-4-4-12 separated by hyphens. -/
def uuidStr (r : Nat) : String :=
  let v := uuidMask r
  String.mk (hexNibbles (v / 16 ^ 24) 8 ++ ('-' ::
    (hexNibbles (v / 16 ^ 20 % 16 ^ 4) 4 ++ ('-' ::
    (hexNibbles (v / 16 ^ 16 % 16 ^ 4) 4 ++ ('-' ::
    (hexNibbles (v / 16 ^ 12 % 16 ^ 4) 4 ++ ('-' ::
    hexNibbles (v % 16 ^ 12) 12))))))))

/-- Lowercase hex digit test. -/
def isHexChar (c : Char) : Bool :=
  (48 ≤ c.toNat && c.toNat ≤ 57) || (97 ≤ c.toNat && c.toNat ≤ 102)

/-- Consume exactly `n` hex characters. -/
def takeHex : List Char → Nat → Option (List Char)
  | cs, 0 => some cs
  | [], _ + 1 => none
  | c :: cs, n + 1 => if isHexChar c then takeHex cs n else none

/-- Check a hyphen-separated sequence of hex groups of the given sizes. -/
def uuidShape : List Char → List Nat → Bool
  | cs, [] => cs.isEmpty
  | cs, n :: ns =>
      match takeHex cs n with
      | none => false
      | some rest =>
          match ns, rest with
          | [], [] => true
          | [], _ :: _ => false
          | _ :: _, [] => false
          | _ :: _, c :: rest2 => c == '-' && uuidShape rest2 ns

/-- Modelled from the spec: a syntactically valid UUID string, i.e. five
    hyphen-separated lowercase hex groups of sizes 8, 4, 4, 4 and 12. -/
def isValidUUID (s : String) : Bool :=
  uuidShape s.data [8, 4, 4, 4, 12]

/-- Hex value of a hex digit character. -/
def hexVal (c : Char) : Nat :=
  if c.toNat ≤ 57 then c.toNat - 48 else c.toNat - 87

/-- Read back a most-significant-first hex digit list onto an accumulator. -/
def readHexAux (acc : Nat) (cs : List Char) : Nat :=
  cs.foldl (fun a c => a * 16 + hexVal c) acc

/-- One request-scoped environment: the responses the external Supabase
    backend gives to the identity, storage, and database calls, the parsed
    request body (or the JSON parse failure message), the 128-bit `uuid4`
    draw, and the two `datetime.now()` readings. -/
structure World where
  supabaseUrl : String
  verifyUser : String → Option JValue
  body : Except String JValue
  rand : Nat
  uploadStatus : Nat
  uploadText : String
  insertStatus : Nat
  insertText : String
  selectStatus : Nat
  selectText : String
  selectJson : Except String JValue
  now1 : String
  now2 : String

/-- The outward calls a handler makes, in order. -/
inductive Effect where
  | verifyCall (token : String)
  | uploadCall (bucket filename : String)
  | insertCall (table : String) (record : List (String × JValue))
  | selectCall (table : String) (filters : List (String × JValue))

/-- The `CertificateResponse` model (`main.py` 124-130). `user_id` is kept as
    the raw JSON value obtained from the identity provider. -/
structure CertResponse where
  certificate_id : String
  pdf_url : String
  created_at : String
  user_id : JValue
  device_model : String
  message : String

/-- A handler result: the typed success of `generate-certificate`, a plain
    JSON success, or an error with HTTP status and detail. -/
inductive HResp where
  | ok (r : CertResponse)
  | okJson (v : JValue)
  | err (status : Nat) (detail : String)

/-- HTTP status of a handler result (successes are 200). -/
def statusCode : HResp → Nat
  | .ok _ => 200
  | .okJson _ => 200
  | .err n _ => n

/-- Whether the result is the typed `generate-certificate` success. -/
def isOk : HResp → Bool
  | .ok _ => true
  | _ => false

/-- Field `certificate_id` of a success (empty on errors). -/
def respCertId : HResp → String
  | .ok r => r.certificate_id
  | _ => ""

/-- Field `pdf_url` of a success (empty on errors). -/
def respPdfUrl : HResp → String
  | .ok r => r.pdf_url
  | _ => ""

/-- Field `user_id` of a success (`null` on errors). -/
def respUserId : HResp → JValue
  | .ok r => r.user_id
  | _ => .null

/-- Field `device_model` of a success (empty on errors). -/
def respDeviceModel : HResp → String
  | .ok r => r.device_model
  | _ => ""

/-- Python `str.startswith`. -/
def pyStartsWith (s pre : String) : Bool :=
  List.isPrefixOf pre.data s.data

/-- Replace all non-overlapping occurrences of `pat` (nonempty) left to right,
    as Python `str.replace` does.  The fuel argument is instantiated with the
    length of the subject and only bounds the recursion. -/
def replaceChars (pat rep : List Char) : Nat → List Char → List Char
  | _, [] => []
  | 0, l => l
  | fuel + 1, c :: t =>
      if List.isPrefixOf pat (c :: t) then
        rep ++ replaceChars pat rep fuel (t.drop (pat.length - 1))
      else
        c :: replaceChars pat rep fuel t

/-- Python `str.replace(pat, rep)`; all call sites in `main.py` use nonempty
    patterns, and the empty pattern is mapped to the identity here. -/
def pyReplace (s pat rep : String) : String :=
  if pat.data.isEmpty then s
  else String.mk (replaceChars pat.data rep.data s.data.length s.data)

/-- Sanitization `device_model.replace(" ", "_").replace("/", "_")` (`main.py` 476). -/
def pySanitize (s : String) : String :=
  pyReplace (pyReplace s " " "_") "/" "_"

/-- Filename `f"cert_` user id `_` safe model `_` certificate id `.pdf"` (`main.py` 477). -/
def mkFilename (uid : JValue) (safeModel cid : String) : String :=
  "cert_" ++ pyStr uid ++ "_" ++ safeModel ++ "_" ++ cid ++ ".pdf"

/-- Method `SupabaseClient.get_public_url` (`main.py` 88-90). -/
def get_public_url (url bucket filename : String) : String :=
  url ++ "/storage/v1/object/public/" ++ bucket ++ "/" ++ filename

/-- The values `generate_certificate` computes between authentication and the
    storage upload. -/
structure GenPrep where
  uid : JValue
  userEmail : JValue
  dataObj : List (String × JValue)
  cid : String
  deviceModel : String
  safeModel : String
  filename : String

/-- The effect-free prefix of `generate_certificate` after a successful
    `verify_user` (`main.py` 453-477): extract `user_info["id"]` and the
    email, parse the body, generate the certificate id, render the PDF,
    resolve and sanitize the device model, and build the storage filename.
    Every `.error` is a Python exception mapped to a 500 by the handler. -/
def genCertCore (w : World) (userInfo : JValue) : Except String GenPrep :=
  match pyIndex userInfo "id" with
  | .error m => .error m
  | .ok uid =>
    match pyGet userInfo "email" (.str "unknown@example.com") with
    | .error m => .error m
    | .ok userEmail =>
      match w.body with
      | .error m => .error m
      | .ok data =>
        match data with
        | .obj dataObj =>
          let cid := uuidStr w.rand
          match pdfCells dataObj cid with
          | .error m => .error m
          | .ok _cells =>
            match resolveChain dataObj "model" "media_information" "model"
                (some "Unknown_Device") with
            | .error m => .error m
            | .ok dm =>
              match dm with
              | .str deviceModel =>
                  let safeModel := pySanitize deviceModel
                  .ok { uid := uid, userEmail := userEmail, dataObj := dataObj,
                        cid := cid, deviceModel := deviceModel, safeModel := safeModel,
                        filename := mkFilename uid safeModel cid }
              | other => .error (noAttr (typeName other) "replace")
        | other => .error (noAttr (typeName other) "keys")

/-- The `certificate_data` record (`main.py` 490-528), built after the upload
    succeeded; the `or`-chains may raise when a named section is present but
    not a dict. -/
def buildRecord (w : World) (p : GenPrep) (pdfUrl : String) :
    Except String (List (String × JValue)) := do
  let manufacturer ← resolveChain p.dataObj "manufacturer" "media_information"
    "manufacturer" (some "Unknown")
  let serial_number ← resolveChain p.dataObj "serial_number" "media_information"
    "serial_number" (some "Unknown")
  let media_type ← resolveChain p.dataObj "media_type" "media_information"
    "media_type" none
  let sanitization_method ← resolveChain p.dataObj "sanitization_method"
    "tool_information" "method" none
  let sanitization_technique ← resolveChain p.dataObj "sanitization_technique"
    "tool_information" "technique" none
  let tool_used ← resolveChain p.dataObj "tool_used" "tool_information" "name" none
  let verification_method ← resolveChain p.dataObj "verification_method"
    "tool_information" "verification_method" none
  pure [("certificate_id", .str p.cid),
        ("user_id", p.uid),
        ("user_email", p.userEmail),
        ("manufacturer", manufacturer),
        ("model", .str p.deviceModel),
        ("serial_number", serial_number),
        ("property_number", getKV p.dataObj "property_number" .null),
        ("media_type", media_type),
        ("media_source", getKV p.dataObj "media_source" .null),
        ("pre_sanitization_confidentiality",
          getKV p.dataObj "pre_sanitization_confidentiality" .null),
        ("sanitization_method", sanitization_method),
        ("sanitization_technique", sanitization_technique),
        ("tool_used", tool_used),
        ("verification_method", verification_method),
        ("post_sanitization_confidentiality",
          getKV p.dataObj "post_sanitization_confidentiality" .null),
        ("post_sanitization_destination",
          getKV p.dataObj "post_sanitization_destination" .null),
        ("certificate_metadata", getKV p.dataObj "certificate_metadata" .null),
        ("tool_information", getKV p.dataObj "tool_information" .null),
        ("sanitization_event", getKV p.dataObj "sanitization_event" .null),
        ("media_information", getKV p.dataObj "media_information" .null),
        ("sanitization_details", getKV p.dataObj "sanitization_details" .null),
        ("host_system_information", getKV p.dataObj "host_system_information" .null),
        ("compliance_information", getKV p.dataObj "compliance_information" .null),
        ("pdf_url", .str pdfUrl),
        ("created_at", .str w.now1)]

/-- Endpoint `POST /generate-certificate` (`main.py` 434-553).  Generic exceptions are
    mapped to `500 str(e)` by the surrounding `try`/`except`. -/
def generate_certificate (w : World) (authorization : Option String) :
    HResp × List Effect :=
  match authorization with
  | none => (.err 401 "Missing or invalid authorization header", [])
  | some auth =>
    if pyStartsWith auth "Bearer " then
      let token := pyReplace auth "Bearer " ""
      match w.verifyUser token with
      | none => (.err 401 "Invalid authentication token", [.verifyCall token])
      | some userInfo =>
        match genCertCore w userInfo with
        | .error m => (.err 500 m, [.verifyCall token])
        | .ok p =>
          if w.uploadStatus ∈ ([200, 201] : List Nat) then
            let pdfUrl := get_public_url w.supabaseUrl "certificates" p.filename
            match buildRecord w p pdfUrl with
            | .error m =>
                (.err 500 m, [.verifyCall token, .uploadCall "certificates" p.filename])
            | .ok record =>
              if w.insertStatus ∈ ([200, 201] : List Nat) then
                (.ok { certificate_id := p.cid, pdf_url := pdfUrl,
                       created_at := w.now2, user_id := p.uid,
                       device_model := p.deviceModel,
                       message := "Certificate generated successfully" },
                 [.verifyCall token, .uploadCall "certificates" p.filename,
                  .insertCall "certificates" record])
              else
                (.err 500 ("Database save failed: " ++ w.insertText),
                 [.verifyCall token, .uploadCall "certificates" p.filename,
                  .insertCall "certificates" record])
          else
            (.err 500 ("Upload failed: " ++ w.uploadText),
             [.verifyCall token, .uploadCall "certificates" p.filename])
    else
      (.err 401 "Missing or invalid authorization header", [])

/-- Endpoint `GET /my-certificates` (`main.py` 555-584).  `limit`/`offset` only shape
    the select query parameters. -/
def get_my_certificates (w : World) (authorization : Option String)
    (_limit _offset : Int) : HResp × List Effect :=
  match authorization with
  | none => (.err 401 "Missing authorization header", [])
  | some auth =>
    if pyStartsWith auth "Bearer " then
      let token := pyReplace auth "Bearer " ""
      match w.verifyUser token with
      | none => (.err 401 "Invalid token", [.verifyCall token])
      | some userInfo =>
        match pyIndex userInfo "id" with
        | .error m => (.err 500 m, [.verifyCall token])
        | .ok uid =>
          let tr := [Effect.verifyCall token,
                     Effect.selectCall "certificates" [("user_id", uid)]]
          if w.selectStatus = 200 then
            match w.selectJson with
            | .error m => (.err 500 m, tr)
            | .ok data =>
              match pyLen data with
              | .error m => (.err 500 m, tr)
              | .ok n =>
                  (.okJson (.obj [("user_id", uid), ("certificates", data),
                                  ("count", .num (Int.ofNat n))]), tr)
          else
            (.err 500 "Database error", tr)
    else
      (.err 401 "Missing authorization header", [])

/-- Endpoint `GET /certificates-by-device/` model (`main.py` 586-619).  Note the 404
    raised when the (200) select returns an empty result. -/
def get_certificates_by_device (w : World) (model : String)
    (authorization : Option String) : HResp × List Effect :=
  match authorization with
  | none => (.err 401 "Missing authorization header", [])
  | some auth =>
    if pyStartsWith auth "Bearer " then
      let token := pyReplace auth "Bearer " ""
      match w.verifyUser token with
      | none => (.err 401 "Invalid token", [.verifyCall token])
      | some userInfo =>
        match pyIndex userInfo "id" with
        | .error m => (.err 500 m, [.verifyCall token])
        | .ok uid =>
          let tr := [Effect.verifyCall token,
                     Effect.selectCall "certificates"
                       [("user_id", uid), ("model", .str model)]]
          if w.selectStatus = 200 then
            match w.selectJson with
            | .error m => (.err 500 m, tr)
            | .ok data =>
              if truthy data then
                match pyFirst data with
                | .error m => (.err 500 m, tr)
                | .ok first =>
                  match pyGet first "manufacturer" (.str "Unknown") with
                  | .error m => (.err 500 m, tr)
                  | .ok manu =>
                    match pyLen data with
                    | .error m => (.err 500 m, tr)
                    | .ok n =>
                        (.okJson (.obj [("device_model", .str model),
                                        ("manufacturer", manu),
                                        ("total_certificates", .num (Int.ofNat n)),
                                        ("certificates", data)]), tr)
              else
                (.err 404 "No certificates found", tr)
          else
            (.err 500 "Database error", tr)
    else
      (.err 401 "Missing authorization header", [])

/-- Endpoint `GET /user-info` (`main.py` 638-658).  Its generic `except` clause maps
    any other exception to a **401** (unlike the other endpoints). -/
def get_user_info (w : World) (authorization : Option String) :
    HResp × List Effect :=
  match authorization with
  | none => (.err 401 "Missing authorization header", [])
  | some auth =>
    if pyStartsWith auth "Bearer " then
      let token := pyReplace auth "Bearer " ""
      match w.verifyUser token with
      | none => (.err 401 "Invalid token", [.verifyCall token])
      | some userInfo =>
        match pyIndex userInfo "id" with
        | .error m => (.err 401 m, [.verifyCall token])
        | .ok uid =>
          match pyGet userInfo "email" .null with
          | .error m => (.err 401 m, [.verifyCall token])
          | .ok email =>
              (.okJson (.obj [("user_id", uid), ("email", email),
                              ("authenticated", .bool true)]), [.verifyCall token])
    else
      (.err 401 "Missing authorization header", [])

/-- Endpoint `GET /` (`main.py` 621-628). -/
def root_endpoint : HResp :=
  .okJson (.obj [("message", .str "Media Sanitization Certificate API"),
                 ("version", .str "2.0.0"), ("status", .str "running")])

/-- Endpoint `GET /health` (`main.py` 630-636). -/
def health_check (w : World) : HResp :=
  .okJson (.obj [("status", .str "healthy"), ("timestamp", .str w.now2)])

/-- Whether a trace contains a database insert. -/
def hasInsert (tr : List Effect) : Bool :=
  tr.any fun e => match e with | .insertCall _ _ => true | _ => false

/-- Whether a trace contains a storage upload. -/
def hasUpload (tr : List Effect) : Bool :=
  tr.any fun e => match e with | .uploadCall _ _ => true | _ => false

/-- The record of the first database insert in a trace, if any. -/
def recordInserted (tr : List Effect) : Option (List (String × JValue)) :=
  tr.findSome? fun e => match e with | .insertCall _ r => some r | _ => none

/-- Substring test on strings. -/
def containsSub (hay needle : String) : Bool :=
  go hay.data
where
  go : List Char → Bool
    | [] => List.isPrefixOf needle.data []
    | l@(_ :: t) => List.isPrefixOf needle.data l || go t

/-- A fully successful environment: the token `tok` is accepted, the body is
    the concrete scenario of the spec, upload and insert succeed. -/
def okWorld : World :=
  { supabaseUrl := "https://supabase.example"
    verifyUser := fun t => if t = "tok" then
        some (.obj [("id", .str "user-1"), ("email", .str "user@example.com")])
      else none
    body := .ok (.obj [("media_information", .obj [("model", .str "SSD-500")]),
                       ("manufacturer", .str "Acme")])
    rand := 0
    uploadStatus := 200, uploadText := ""
    insertStatus := 201, insertText := ""
    selectStatus := 200, selectText := "", selectJson := .ok (.list [])
    now1 := "2026-01-01T00:00:00", now2 := "2026-01-01T00:00:01" }

def hasSelect (tr : List Effect) : Bool :=
  tr.any fun e => match e with | .selectCall _ _ => true | _ => false

def authRejected (w : World) (a : Option String) : Prop :=
  match a with
  | none => True
  | some s => pyStartsWith s "Bearer " = false ∨
      w.verifyUser (pyReplace s "Bearer " "") = none

def okErrStatuses (n : Nat) : Prop :=
  n = 200 ∨ n = 401 ∨ n = 404 ∨ n = 500

def falsyModelWorld : World :=
  { okWorld with body := .ok (.obj [("model", .str ""),
      ("media_information", .obj [("model", .str "SSD-X")])]) }

def uploadFailWorld : World :=
  { okWorld with uploadStatus := 403, uploadText := "Forbidden" }

def selectFailWorld : World :=
  { okWorld with selectStatus := 500, selectText := "boom" }

def okWorldLater : World :=
  { okWorld with now1 := "2026-03-03T00:00:00", now2 := "2026-03-03T00:00:01" }

def okWorldRand1 : World := { okWorld with rand := 1 }

def okWorld2 : World :=
  { okWorld with
      body := .ok (.obj
        [("media_information",
           .obj [("model", .str "SSD-500"), ("serial_number", .str "SN-9")]),
         ("manufacturer", .str "OtherCorp")])
      now1 := "2026-02-02T00:00:00", now2 := "2026-02-02T00:00:01"
      uploadStatus := 201 }

def blankCertIdData : List (String × JValue) :=
  [("certificate_metadata", .obj [("certificate_id", .str "")])]

/-! ## Helper lemmas: UUID formatting, shape of successful runs, case
    enumeration of `generate_certificate` -/

theorem hexNibbles_length (k : Nat) : ∀ v, (hexNibbles v k).length = k := by
  induction k with
  | zero => intro v; rfl
  | succ k ih => intro v; simp [hexNibbles, ih]

theorem hexDigit_isHex (n : Nat) (h : n < 16) : isHexChar (hexDigit n) = true := by
  interval_cases n <;> decide

theorem hexNibbles_hex (k : Nat) :
    ∀ v c, c ∈ hexNibbles v k → isHexChar c = true := by
  induction k with
  | zero => intro v c h; simp [hexNibbles] at h
  | succ k ih =>
      intro v c h
      simp only [hexNibbles, List.mem_cons] at h
      rcases h with h | h
      · subst h; exact hexDigit_isHex _ (Nat.mod_lt _ (by norm_num))
      · exact ih _ _ h

theorem takeHex_append (g rest : List Char)
    (hhex : ∀ c ∈ g, isHexChar c = true) :
    takeHex (g ++ rest) g.length = some rest := by
  induction g with
  | nil => simp [takeHex]
  | cons c g ih =>
      have hc : isHexChar c = true := hhex c (by simp)
      simp only [List.cons_append, List.length_cons, takeHex, hc, if_true]
      exact ih (fun x hx => hhex x (by simp [hx]))

theorem uuidShape_cons (g rest : List Char) (n m : Nat) (ns : List Nat)
    (hg : g.length = n) (hhex : ∀ c ∈ g, isHexChar c = true) :
    uuidShape (g ++ '-' :: rest) (n :: m :: ns) = uuidShape rest (m :: ns) := by
  have h := takeHex_append g ('-' :: rest) hhex
  rw [hg] at h
  simp only [uuidShape, h]
  rfl

theorem uuidShape_last (g : List Char) (n : Nat)
    (hg : g.length = n) (hhex : ∀ c ∈ g, isHexChar c = true) :
    uuidShape g [n] = true := by
  have h := takeHex_append g [] hhex
  rw [List.append_nil, hg] at h
  simp [uuidShape, h]

theorem uuidStr_valid (r : Nat) : isValidUUID (uuidStr r) = true := by
  show uuidShape
    (hexNibbles (uuidMask r / 16 ^ 24) 8 ++ ('-' ::
      (hexNibbles (uuidMask r / 16 ^ 20 % 16 ^ 4) 4 ++ ('-' ::
      (hexNibbles (uuidMask r / 16 ^ 16 % 16 ^ 4) 4 ++ ('-' ::
      (hexNibbles (uuidMask r / 16 ^ 12 % 16 ^ 4) 4 ++ ('-' ::
      hexNibbles (uuidMask r % 16 ^ 12) 12)))))))) [8, 4, 4, 4, 12] = true
  rw [uuidShape_cons _ _ _ _ _ (hexNibbles_length 8 _) (fun c hc => hexNibbles_hex 8 _ c hc),
      uuidShape_cons _ _ _ _ _ (hexNibbles_length 4 _) (fun c hc => hexNibbles_hex 4 _ c hc),
      uuidShape_cons _ _ _ _ _ (hexNibbles_length 4 _) (fun c hc => hexNibbles_hex 4 _ c hc),
      uuidShape_cons _ _ _ _ _ (hexNibbles_length 4 _) (fun c hc => hexNibbles_hex 4 _ c hc),
      uuidShape_last _ _ (hexNibbles_length 12 _) (fun c hc => hexNibbles_hex 12 _ c hc)]

theorem hexVal_hexDigit (n : Nat) (h : n < 16) : hexVal (hexDigit n) = n := by
  interval_cases n <;> decide

theorem readHexAux_cons (acc : Nat) (c : Char) (cs : List Char) :
    readHexAux acc (c :: cs) = readHexAux (acc * 16 + hexVal c) cs := rfl

theorem readHexAux_append (acc : Nat) (l1 l2 : List Char) :
    readHexAux acc (l1 ++ l2) = readHexAux (readHexAux acc l1) l2 := by
  unfold readHexAux
  exact List.foldl_append _ _ _ _

theorem mod_mul_decomp (n a b : Nat) :
    n % (a * b) = a * (n / a % b) + n % a := by
  have h1 : n % (a * b) % a = n % a := Nat.mod_mod_of_dvd n ⟨b, rfl⟩
  have h2 : n % (a * b) / a = n / a % b := Nat.mod_mul_right_div_self n a b
  have h3 := Nat.div_add_mod (n % (a * b)) a
  rw [h1, h2] at h3
  exact h3.symm

theorem readHexAux_hexNibbles (k : Nat) :
    ∀ acc v, readHexAux acc (hexNibbles v k) = acc * 16 ^ k + v % 16 ^ k := by
  induction k with
  | zero => intro acc v; simp [hexNibbles, readHexAux, Nat.mod_one]
  | succ k ih =>
      intro acc v
      have hd : v / 16 ^ k % 16 < 16 := Nat.mod_lt _ (by norm_num)
      rw [hexNibbles, readHexAux_cons, ih, hexVal_hexDigit _ hd,
          Nat.mod_mod_of_dvd _ (dvd_refl (16 ^ k)), pow_succ,
          mod_mul_decomp v (16 ^ k) 16]
      ring

theorem hexNibbles_ne_hyphen (k : Nat) (v : Nat) (c : Char) (hc : c ∈ hexNibbles v k) :
    (c != '-') = true := by
  have hx := hexNibbles_hex k v c hc
  by_contra h
  simp only [bne_iff_ne, ne_eq, not_not] at h
  subst h
  simp [isHexChar] at hx

theorem filter_hexNibbles (k v : Nat) :
    (hexNibbles v k).filter (fun c => c != '-') = hexNibbles v k :=
  List.filter_eq_self.mpr (fun c hc => hexNibbles_ne_hyphen k v c hc)

theorem filter_hyphen_cons (l : List Char) :
    List.filter (fun c => c != '-') ('-' :: l) = List.filter (fun c => c != '-') l := by
  simp

theorem uuidMask_lt (r : Nat) : uuidMask r < 16 ^ 32 := by
  unfold uuidMask uuidSetVariant uuidSetVersion
  omega

theorem uuidStr_readback (r : Nat) :
    readHexAux 0 ((uuidStr r).data.filter (fun c => c != '-')) = uuidMask r := by
  have hv : uuidMask r < 16 ^ 32 := uuidMask_lt r
  show readHexAux 0 (List.filter (fun c => c != '-')
    (hexNibbles (uuidMask r / 16 ^ 24) 8 ++ ('-' ::
    (hexNibbles (uuidMask r / 16 ^ 20 % 16 ^ 4) 4 ++ ('-' ::
    (hexNibbles (uuidMask r / 16 ^ 16 % 16 ^ 4) 4 ++ ('-' ::
    (hexNibbles (uuidMask r / 16 ^ 12 % 16 ^ 4) 4 ++ ('-' ::
    hexNibbles (uuidMask r % 16 ^ 12) 12))))))))) = uuidMask r
  rw [List.filter_append, filter_hexNibbles, filter_hyphen_cons,
      List.filter_append, filter_hexNibbles, filter_hyphen_cons,
      List.filter_append, filter_hexNibbles, filter_hyphen_cons,
      List.filter_append, filter_hexNibbles, filter_hyphen_cons,
      filter_hexNibbles]
  rw [readHexAux_append, readHexAux_append, readHexAux_append, readHexAux_append]
  rw [readHexAux_hexNibbles, readHexAux_hexNibbles, readHexAux_hexNibbles,
      readHexAux_hexNibbles, readHexAux_hexNibbles]
  omega

theorem uuidStr_inj (r1 r2 : Nat) (h : uuidStr r1 = uuidStr r2) :
    uuidMask r1 = uuidMask r2 := by
  have := congrArg (fun s => readHexAux 0 ((String.data s).filter (fun c => c != '-'))) h
  simpa only [uuidStr_readback] using this

/-- A successful effect-free prefix fixes the certificate id, the sanitized
    model, and the filename. -/
theorem genCertCore_shape (w : World) (u : JValue) (p : GenPrep)
    (h : genCertCore w u = .ok p) :
    p.cid = uuidStr w.rand ∧ p.safeModel = pySanitize p.deviceModel ∧
    p.filename = mkFilename p.uid p.safeModel p.cid := by
  unfold genCertCore at h
  rcases h1 : pyIndex u "id" with m | uid <;> rw [h1] at h
  · cases h
  dsimp only at h
  rcases h2 : pyGet u "email" (.str "unknown@example.com") with m | em <;> rw [h2] at h
  · cases h
  dsimp only at h
  rcases h3 : w.body with m | data <;> rw [h3] at h
  · cases h
  dsimp only at h
  cases data
  case obj dataObj =>
    dsimp only at h
    rcases h4 : pdfCells dataObj (uuidStr w.rand) with m | cells <;> rw [h4] at h
    · cases h
    dsimp only at h
    rcases h5 : resolveChain dataObj "model" "media_information" "model"
        (some "Unknown_Device") with m | dm <;> rw [h5] at h
    · cases h
    dsimp only at h
    cases dm
    case str deviceModel =>
      dsimp only at h
      cases h
      exact ⟨rfl, rfl, rfl⟩
    all_goals cases h
  all_goals cases h

/-- A successful run returns the uuid of the draw as certificate id, and a
    pdf url built from the base url, the bucket, the user id, the sanitized
    device model and the certificate id. -/
theorem gen_ok_shape (w : World) (a : Option String)
    (h : isOk (generate_certificate w a).1 = true) :
    respCertId (generate_certificate w a).1 = uuidStr w.rand ∧
    respPdfUrl (generate_certificate w a).1 =
      get_public_url w.supabaseUrl "certificates"
        (mkFilename (respUserId (generate_certificate w a).1)
          (pySanitize (respDeviceModel (generate_certificate w a).1))
          (respCertId (generate_certificate w a).1)) := by
  rcases hE : generate_certificate w a with ⟨res, tr⟩
  rw [hE] at h
  unfold generate_certificate at hE
  rcases a with _ | auth
  · cases hE; simp [isOk] at h
  try dsimp only at hE
  by_cases hb : pyStartsWith auth "Bearer " = true
  case neg => rw [if_neg hb] at hE; cases hE; simp [isOk] at h
  rw [if_pos hb] at hE
  try dsimp only at hE
  rcases hv : w.verifyUser (pyReplace auth "Bearer " "") with _ | userInfo <;>
    rw [hv] at hE
  · cases hE; simp [isOk] at h
  try dsimp only at hE
  rcases hp : genCertCore w userInfo with m | p <;> rw [hp] at hE
  · cases hE; simp [isOk] at h
  try dsimp only at hE
  by_cases hup : w.uploadStatus ∈ ([200, 201] : List Nat)
  case neg => rw [if_neg hup] at hE; cases hE; simp [isOk] at h
  rw [if_pos hup] at hE
  try dsimp only at hE
  rcases hr : buildRecord w p
      (get_public_url w.supabaseUrl "certificates" p.filename) with m | record <;>
    rw [hr] at hE
  · cases hE; simp [isOk] at h
  try dsimp only at hE
  by_cases hins : w.insertStatus ∈ ([200, 201] : List Nat)
  case neg => rw [if_neg hins] at hE; cases hE; simp [isOk] at h
  rw [if_pos hins] at hE
  cases hE
  obtain ⟨hc, hs, hf⟩ := genCertCore_shape _ _ _ hp
  simp only [respCertId, respPdfUrl, respUserId, respDeviceModel]
  exact ⟨hc, by rw [hf, hs]⟩

theorem isPrefixOf_self (l : List Char) : List.isPrefixOf l l = true := by
  induction l with
  | nil => rfl
  | cons c t ih => simp [List.isPrefixOf, ih]

theorem containsSub_go_suffix (needle : String) :
    ∀ l1 l2, List.isPrefixOf needle.data l2 = true →
      containsSub.go needle (l1 ++ l2) = true := by
  intro l1
  induction l1 with
  | nil =>
      intro l2 h
      cases l2 with
      | nil => simpa [containsSub.go] using h
      | cons c t => simp [containsSub.go, h]
  | cons c t ih => intro l2 h; simp [containsSub.go, ih l2 h]

theorem containsSub_append_self (pre s : String) :
    containsSub (pre ++ s) s = true := by
  unfold containsSub
  rw [String.data_append]
  exact containsSub_go_suffix s pre.data s.data (isPrefixOf_self s.data)

theorem gen_cases (w : World) (a : Option String) (res : HResp) (tr : List Effect)
    (hE : generate_certificate w a = (res, tr)) :
    (∃ d, res = .err 401 d ∧ tr = []) ∨
    (∃ d tok, res = .err 401 d ∧ tr = [.verifyCall tok]) ∨
    (∃ tok userInfo m, w.verifyUser tok = some userInfo ∧
        genCertCore w userInfo = .error m ∧
        res = .err 500 m ∧ tr = [.verifyCall tok]) ∨
    (∃ (tok : String) (p : GenPrep), w.uploadStatus ∉ ([200, 201] : List Nat) ∧
        res = .err 500 ("Upload failed: " ++ w.uploadText) ∧
        tr = [.verifyCall tok, .uploadCall "certificates" p.filename]) ∨
    (∃ (tok : String) (p : GenPrep) (m : String), w.uploadStatus ∈ ([200, 201] : List Nat) ∧
        buildRecord w p (get_public_url w.supabaseUrl "certificates" p.filename) =
          .error m ∧
        res = .err 500 m ∧
        tr = [.verifyCall tok, .uploadCall "certificates" p.filename]) ∨
    (∃ (tok : String) (p : GenPrep) (record : List (String × JValue)), w.uploadStatus ∈ ([200, 201] : List Nat) ∧
        w.insertStatus ∉ ([200, 201] : List Nat) ∧
        res = .err 500 ("Database save failed: " ++ w.insertText) ∧
        tr = [.verifyCall tok, .uploadCall "certificates" p.filename,
              .insertCall "certificates" record]) ∨
    (∃ (tok : String) (p : GenPrep) (record : List (String × JValue)) (r : CertResponse), w.uploadStatus ∈ ([200, 201] : List Nat) ∧
        w.insertStatus ∈ ([200, 201] : List Nat) ∧
        res = .ok r ∧
        tr = [.verifyCall tok, .uploadCall "certificates" p.filename,
              .insertCall "certificates" record]) := by
  unfold generate_certificate at hE
  rcases a with _ | auth
  · cases hE; exact Or.inl ⟨_, rfl, rfl⟩
  dsimp only at hE
  by_cases hb : pyStartsWith auth "Bearer " = true
  case neg => rw [if_neg hb] at hE; cases hE; exact Or.inl ⟨_, rfl, rfl⟩
  rw [if_pos hb] at hE
  try dsimp only at hE
  rcases hv : w.verifyUser (pyReplace auth "Bearer " "") with _ | userInfo <;>
    rw [hv] at hE
  · cases hE; exact Or.inr (Or.inl ⟨_, _, rfl, rfl⟩)
  try dsimp only at hE
  rcases hp : genCertCore w userInfo with m | p <;> rw [hp] at hE
  · cases hE
    exact Or.inr (Or.inr (Or.inl ⟨_, userInfo, m, hv, hp, rfl, rfl⟩))
  try dsimp only at hE
  by_cases hup : w.uploadStatus ∈ ([200, 201] : List Nat)
  case neg =>
    rw [if_neg hup] at hE; cases hE
    exact Or.inr (Or.inr (Or.inr (Or.inl ⟨_, p, hup, rfl, rfl⟩)))
  rw [if_pos hup] at hE
  try dsimp only at hE
  rcases hr : buildRecord w p
      (get_public_url w.supabaseUrl "certificates" p.filename) with m | record <;>
    rw [hr] at hE
  · cases hE
    exact Or.inr (Or.inr (Or.inr (Or.inr (Or.inl ⟨_, p, m, hup, hr, rfl, rfl⟩))))
  try dsimp only at hE
  by_cases hins : w.insertStatus ∈ ([200, 201] : List Nat)
  case neg =>
    rw [if_neg hins] at hE; cases hE
    exact Or.inr (Or.inr (Or.inr (Or.inr (Or.inr (Or.inl
      ⟨_, p, record, hup, hins, rfl, rfl⟩)))))
  rw [if_pos hins] at hE; cases hE
  exact Or.inr (Or.inr (Or.inr (Or.inr (Or.inr (Or.inr
    ⟨_, p, record, _, hup, hins, rfl, rfl⟩)))))

/-! ## Claim theorems -/

/-- C2: for every request to a protected endpoint whose Authorization header
    is missing, does not start with `Bearer `, or carries a token the
    identity provider does not accept, the endpoint returns HTTP 401. -/
theorem C2_auth_401 (w : World) (a : Option String) (l o : Int) (m : String)
    (h : authRejected w a) :
    statusCode (generate_certificate w a).1 = 401 ∧
    statusCode (get_my_certificates w a l o).1 = 401 ∧
    statusCode (get_certificates_by_device w m a).1 = 401 ∧
    statusCode (get_user_info w a).1 = 401 := by
  rcases a with _ | s
  · exact ⟨rfl, rfl, rfl, rfl⟩
  rcases h with hb | hv
  · refine ⟨?_, ?_, ?_, ?_⟩ <;>
      simp [generate_certificate, get_my_certificates, get_certificates_by_device,
            get_user_info, hb, statusCode]
  · by_cases hb : pyStartsWith s "Bearer " = true
    · refine ⟨?_, ?_, ?_, ?_⟩ <;>
        simp [generate_certificate, get_my_certificates, get_certificates_by_device,
              get_user_info, hb, hv, statusCode]
    · refine ⟨?_, ?_, ?_, ?_⟩ <;>
        simp [generate_certificate, get_my_certificates, get_certificates_by_device,
              get_user_info, hb, statusCode]

/-- C3: for every generate-certificate request in which the storage upload
    returns a non-2xx status, the database insert is never invoked, and
    whenever the upload was performed the endpoint returns HTTP 500 with the
    upstream error text. -/
theorem C3_upload_failure (w : World) (a : Option String)
    (h : ¬(200 ≤ w.uploadStatus ∧ w.uploadStatus < 300)) :
    hasInsert (generate_certificate w a).2 = false ∧
    (hasUpload (generate_certificate w a).2 = true →
      (generate_certificate w a).1 = .err 500 ("Upload failed: " ++ w.uploadText)) := by
  have hnot : w.uploadStatus ∉ ([200, 201] : List Nat) := by
    intro hmem
    rcases List.mem_cons.mp hmem with h200 | hmem1
    · omega
    rcases List.mem_cons.mp hmem1 with h201 | hmem2
    · omega
    · cases hmem2
  rcases gen_cases w a (generate_certificate w a).1 (generate_certificate w a).2 rfl with
    ⟨d, hres, htr⟩ | ⟨d, tok, hres, htr⟩ | ⟨tok, u, m, _, _, hres, htr⟩ |
    ⟨tok, p, hup, hres, htr⟩ | ⟨tok, p, m, hup, _, hres, htr⟩ |
    ⟨tok, p, rec, hup, _, hres, htr⟩ | ⟨tok, p, rec, r, hup, _, hres, htr⟩ <;>
    first
      | exact absurd hup hnot
      | (rw [hres, htr]; simp [hasInsert, hasUpload])

/-- C4 (amended): every response status produced by the service is 200, 401,
    404 or 500; the extra 404 comes from certificates-by-device when the
    select returns an empty result. -/
theorem C4_amended (w : World) (a : Option String) (l o : Int) (m : String) :
    okErrStatuses (statusCode (generate_certificate w a).1) ∧
    okErrStatuses (statusCode (get_my_certificates w a l o).1) ∧
    okErrStatuses (statusCode (get_certificates_by_device w m a).1) ∧
    okErrStatuses (statusCode (get_user_info w a).1) ∧
    okErrStatuses (statusCode root_endpoint) ∧
    okErrStatuses (statusCode (health_check w)) := by
  refine ⟨?_, ?_, ?_, ?_, ?_, ?_⟩
  · rcases gen_cases w a (generate_certificate w a).1 (generate_certificate w a).2 rfl with
      ⟨d, hres, _⟩ | ⟨d, tok, hres, _⟩ | ⟨tok, u, mm, _, _, hres, _⟩ |
      ⟨tok, p, _, hres, _⟩ | ⟨tok, p, mm, _, _, hres, _⟩ |
      ⟨tok, p, rec, _, _, hres, _⟩ | ⟨tok, p, rec, r, _, _, hres, _⟩ <;>
      rw [hres] <;> simp [statusCode, okErrStatuses]
  · unfold get_my_certificates
    rcases a with _ | s
    · simp [statusCode, okErrStatuses]
    dsimp only
    by_cases hb : pyStartsWith s "Bearer " = true
    case neg => rw [if_neg hb]; simp [statusCode, okErrStatuses]
    rw [if_pos hb]
    try dsimp only
    rcases w.verifyUser (pyReplace s "Bearer " "") with _ | u
    · simp [statusCode, okErrStatuses]
    try dsimp only
    rcases pyIndex u "id" with mm | uid
    · simp [statusCode, okErrStatuses]
    try dsimp only
    by_cases hsel : w.selectStatus = 200
    case neg => rw [if_neg hsel]; simp [statusCode, okErrStatuses]
    rw [if_pos hsel]
    try dsimp only
    rcases w.selectJson with mm | data
    · simp [statusCode, okErrStatuses]
    try dsimp only
    rcases pyLen data with mm | n <;> simp [statusCode, okErrStatuses]
  · unfold get_certificates_by_device
    rcases a with _ | s
    · simp [statusCode, okErrStatuses]
    dsimp only
    by_cases hb : pyStartsWith s "Bearer " = true
    case neg => rw [if_neg hb]; simp [statusCode, okErrStatuses]
    rw [if_pos hb]
    try dsimp only
    rcases w.verifyUser (pyReplace s "Bearer " "") with _ | u
    · simp [statusCode, okErrStatuses]
    try dsimp only
    rcases pyIndex u "id" with mm | uid
    · simp [statusCode, okErrStatuses]
    try dsimp only
    by_cases hsel : w.selectStatus = 200
    case neg => rw [if_neg hsel]; simp [statusCode, okErrStatuses]
    rw [if_pos hsel]
    try dsimp only
    rcases w.selectJson with mm | data
    · simp [statusCode, okErrStatuses]
    try dsimp only
    by_cases ht : truthy data = true
    case neg => rw [if_neg ht]; simp [statusCode, okErrStatuses]
    rw [if_pos ht]
    try dsimp only
    rcases pyFirst data with mm | first
    · simp [statusCode, okErrStatuses]
    try dsimp only
    rcases pyGet first "manufacturer" (.str "Unknown") with mm | manu
    · simp [statusCode, okErrStatuses]
    try dsimp only
    rcases pyLen data with mm | n <;> simp [statusCode, okErrStatuses]
  · unfold get_user_info
    rcases a with _ | s
    · simp [statusCode, okErrStatuses]
    dsimp only
    by_cases hb : pyStartsWith s "Bearer " = true
    case neg => rw [if_neg hb]; simp [statusCode, okErrStatuses]
    rw [if_pos hb]
    try dsimp only
    rcases w.verifyUser (pyReplace s "Bearer " "") with _ | u
    · simp [statusCode, okErrStatuses]
    try dsimp only
    rcases pyIndex u "id" with mm | uid
    · simp [statusCode, okErrStatuses]
    try dsimp only
    rcases pyGet u "email" .null with mm | em <;> simp [statusCode, okErrStatuses]
  · simp [root_endpoint, statusCode, okErrStatuses]
  · simp [health_check, statusCode, okErrStatuses]

theorem mem_2xx {n : Nat} (h : n ∈ ([200, 201] : List Nat)) :
    200 ≤ n ∧ n < 300 := by
  rcases List.mem_cons.mp h with h1 | h2
  · omega
  rcases List.mem_cons.mp h2 with h1 | h3
  · omega
  · cases h3

/-- C5 (amended): generate-certificate surfaces the upstream error text in
    its 500 detail for storage-upload and database-insert failures, while the
    two select endpoints return 500 with the fixed detail `Database error`
    on a non-200 select. -/
theorem C5_amended (w : World) (a : Option String) (l o : Int) (md : String) :
    (hasUpload (generate_certificate w a).2 = true →
      ¬(200 ≤ w.uploadStatus ∧ w.uploadStatus < 300) →
      (generate_certificate w a).1 = .err 500 ("Upload failed: " ++ w.uploadText) ∧
      containsSub ("Upload failed: " ++ w.uploadText) w.uploadText = true) ∧
    (hasInsert (generate_certificate w a).2 = true →
      ¬(200 ≤ w.insertStatus ∧ w.insertStatus < 300) →
      (generate_certificate w a).1 =
        .err 500 ("Database save failed: " ++ w.insertText) ∧
      containsSub ("Database save failed: " ++ w.insertText) w.insertText = true) ∧
    (∀ s u, pyStartsWith s "Bearer " = true →
      w.verifyUser (pyReplace s "Bearer " "") = some u →
      ∀ uid, pyIndex u "id" = .ok uid → w.selectStatus ≠ 200 →
      (get_my_certificates w (some s) l o).1 = .err 500 "Database error" ∧
      (get_certificates_by_device w md (some s)).1 = .err 500 "Database error") := by
  refine ⟨?_, ?_, ?_⟩
  · rcases gen_cases w a (generate_certificate w a).1 (generate_certificate w a).2 rfl with
      ⟨d, hres, htr⟩ | ⟨d, tok, hres, htr⟩ | ⟨tok, u, mm, _, _, hres, htr⟩ |
      ⟨tok, p, hup, hres, htr⟩ | ⟨tok, p, mm, hup, _, hres, htr⟩ |
      ⟨tok, p, rec, hup, _, hres, htr⟩ | ⟨tok, p, rec, r, hup, _, hres, htr⟩ <;>
      rw [htr] <;> intro hU hnx
    · simp [hasUpload] at hU
    · simp [hasUpload] at hU
    · simp [hasUpload] at hU
    · exact ⟨hres, containsSub_append_self _ _⟩
    · exact absurd (mem_2xx hup) hnx
    · exact absurd (mem_2xx hup) hnx
    · exact absurd (mem_2xx hup) hnx
  · rcases gen_cases w a (generate_certificate w a).1 (generate_certificate w a).2 rfl with
      ⟨d, hres, htr⟩ | ⟨d, tok, hres, htr⟩ | ⟨tok, u, mm, _, _, hres, htr⟩ |
      ⟨tok, p, hup, hres, htr⟩ | ⟨tok, p, mm, hup, _, hres, htr⟩ |
      ⟨tok, p, rec, hup, hins, hres, htr⟩ | ⟨tok, p, rec, r, hup, hins, hres, htr⟩ <;>
      rw [htr] <;> intro hI hnx
    · simp [hasInsert] at hI
    · simp [hasInsert] at hI
    · simp [hasInsert] at hI
    · simp [hasInsert] at hI
    · simp [hasInsert] at hI
    · exact ⟨hres, containsSub_append_self _ _⟩
    · exact absurd (mem_2xx hins) hnx
  · intro s u hs hu uid hidx hsel
    constructor
    · unfold get_my_certificates
      try dsimp only
      rw [if_pos hs]
      try dsimp only
      rw [hu]
      try dsimp only
      rw [hidx]
      try dsimp only
      rw [if_neg hsel]
    · unfold get_certificates_by_device
      try dsimp only
      rw [if_pos hs]
      try dsimp only
      rw [hu]
      try dsimp only
      rw [hidx]
      try dsimp only
      rw [if_neg hsel]

/-- C1 (amended): field resolution follows Python truthiness: a present
    truthy top-level value wins; with the top-level key absent or falsy, a
    present truthy nested value is used; with both absent or falsy, the
    sentinel placeholder is returned. -/
theorem C1_amended (kvs : List (String × JValue)) (top sec nested d : String) :
    (truthy (getKV kvs top .null) = true →
      resolveChain kvs top sec nested (some d) = .ok (getKV kvs top .null)) ∧
    (truthy (getKV kvs top .null) = false →
      ∀ scts, getKV kvs sec (.obj []) = .obj scts →
        ((truthy (getKV scts nested .null) = true →
           resolveChain kvs top sec nested (some d) =
             .ok (getKV scts nested .null)) ∧
         (truthy (getKV scts nested .null) = false →
           resolveChain kvs top sec nested (some d) = .ok (.str d)))) := by
  constructor
  · intro ht
    simp [resolveChain, ht]
  · intro hf scts hsec
    simp only [resolveChain, nestedOrDefault, hf, hsec, pyGet, Bool.false_eq_true,
      if_false]
    constructor
    · intro ht; simp [ht]
    · intro ht; simp [ht]

/-- C10 (amended): a present falsy value is treated as absent: `get_value`
    returns the cell default (`N/A` for every cell except the Certificate ID
    cell, whose default is the generated certificate id), the fallback chain
    skips a falsy top-level value, and empty `passes_performed` or
    `tools_used` lists render as `N/A`; rendered cells are strings by
    construction. -/
theorem C10_amended :
    (∀ kvs key d v, List.lookup key kvs = some v → truthy v = false →
        get_value (.obj kvs) key d = d) ∧
    (∀ kvs top sec nested d, truthy (getKV kvs top .null) = false →
        resolveChain kvs top sec nested d = nestedOrDefault kvs sec nested d) ∧
    (∀ kvs, List.lookup "passes_performed" kvs = some (.list []) →
        passesCountOf (.obj kvs) = .ok "N/A") ∧
    (∀ kvs, List.lookup "tools_used" kvs = some (.list []) →
        toolsStrOf (.obj kvs) = .ok "N/A") := by
  refine ⟨?_, ?_, ?_, ?_⟩
  · intro kvs key d v hv hf
    simp [get_value, hv, hf]
  · intro kvs top sec nested d hf
    simp [resolveChain, hf]
  · intro kvs hv
    simp [passesCountOf, pyGet, getKV, hv, truthy, bind, Except.bind, pure, Except.pure]
  · intro kvs hv
    simp [toolsStrOf, pyGet, getKV, hv, truthy, bind, Except.bind, pure, Except.pure]

/-- C8: the storage URL of a successful run is a deterministic function of
    the base URL, the fixed bucket, the user id, the sanitized device model
    and the certificate id. -/
theorem C8_url_deterministic (w w' : World) (a a' : Option String)
    (h : isOk (generate_certificate w a).1 = true)
    (h' : isOk (generate_certificate w' a').1 = true)
    (hurl : w.supabaseUrl = w'.supabaseUrl)
    (hid : respCertId (generate_certificate w a).1 =
           respCertId (generate_certificate w' a').1)
    (huid : respUserId (generate_certificate w a).1 =
            respUserId (generate_certificate w' a').1)
    (hm : pySanitize (respDeviceModel (generate_certificate w a).1) =
          pySanitize (respDeviceModel (generate_certificate w' a').1)) :
    respPdfUrl (generate_certificate w a).1 =
      respPdfUrl (generate_certificate w' a').1 := by
  obtain ⟨_, hu1⟩ := gen_ok_shape w a h
  obtain ⟨_, hu2⟩ := gen_ok_shape w' a' h'
  rw [hu1, hu2, hurl, hid, huid, hm]

/-- C9 (amended): every successful call returns a syntactically valid UUID
    certificate id, and two successful calls return distinct ids whenever
    their masked 128-bit uuid4 draws differ. -/
theorem C9_amended (w w' : World) (a a' : Option String)
    (h : isOk (generate_certificate w a).1 = true)
    (h' : isOk (generate_certificate w' a').1 = true) :
    isValidUUID (respCertId (generate_certificate w a).1) = true ∧
    (uuidMask w.rand ≠ uuidMask w'.rand →
      respCertId (generate_certificate w a).1 ≠
        respCertId (generate_certificate w' a').1) := by
  obtain ⟨hc, _⟩ := gen_ok_shape w a h
  obtain ⟨hc', _⟩ := gen_ok_shape w' a' h'
  rw [hc, hc']
  exact ⟨uuidStr_valid _, fun hne he => hne (uuidStr_inj _ _ he)⟩

/-- C7: for the body with nested `media_information.model = "SSD-500"` and
    top-level `manufacturer = "Acme"` and a valid token, the inserted record
    has `model = "SSD-500"` and `manufacturer = "Acme"`. -/
theorem C7_concrete_record :
    isOk (generate_certificate okWorld (some "Bearer tok")).1 = true ∧
    (recordInserted (generate_certificate okWorld (some "Bearer tok")).2).bind
        (fun r => r.lookup "model") = some (.str "SSD-500") ∧
    (recordInserted (generate_certificate okWorld (some "Bearer tok")).2).bind
        (fun r => r.lookup "manufacturer") = some (.str "Acme") :=
  ⟨rfl, rfl, rfl⟩

/-- C1 counterexample: with the top-level key `model` present with value `""`
    and the nested `media_information.model` present with value `"SSD-X"`,
    the resolved model is the nested value, not the top-level one. -/
theorem C1_counterexample :
    (recordInserted (generate_certificate falsyModelWorld (some "Bearer tok")).2).bind
        (fun r => r.lookup "model") = some (.str "SSD-X") ∧
    ("SSD-X" : String) ≠ "" :=
  ⟨rfl, by decide⟩

/-- Witness for C1 (amended) at a concrete input. -/
theorem C1_amended_witness :
    resolveChain [("model", .str ""),
        ("media_information", .obj [("model", .str "SSD-X")])]
      "model" "media_information" "model" (some "Unknown_Device") =
      .ok (.str "SSD-X") :=
  ((C1_amended [("model", .str ""),
        ("media_information", .obj [("model", .str "SSD-X")])]
      "model" "media_information" "model" "Unknown_Device").2
    (by decide) [("model", JValue.str "SSD-X")] rfl).1 (by decide)

/-- Witness for C2 at a concrete environment with a missing header. -/
theorem C2_auth_401_witness :
    statusCode (generate_certificate okWorld none).1 = 401 ∧
    statusCode (get_my_certificates okWorld none 10 0).1 = 401 ∧
    statusCode (get_certificates_by_device okWorld "SSD-500" none).1 = 401 ∧
    statusCode (get_user_info okWorld none).1 = 401 :=
  C2_auth_401 okWorld none 10 0 "SSD-500" trivial

/-- Witness for C3: an upload answered with HTTP 403. -/
theorem C3_witness :
    hasInsert (generate_certificate uploadFailWorld (some "Bearer tok")).2 = false ∧
    (generate_certificate uploadFailWorld (some "Bearer tok")).1 =
      .err 500 ("Upload failed: " ++ uploadFailWorld.uploadText) := by
  obtain ⟨h1, h2⟩ := C3_upload_failure uploadFailWorld (some "Bearer tok") (by decide)
  exact ⟨h1, h2 rfl⟩

/-- C4 counterexample: certificates-by-device returns HTTP 404 when the
    select succeeds with an empty list, a status outside the claimed
    401/500 taxonomy. -/
theorem C4_counterexample :
    (get_certificates_by_device okWorld "SSD-500" (some "Bearer tok")).1 =
      .err 404 "No certificates found" ∧
    ((404 : Nat) ≠ 401 ∧ (404 : Nat) ≠ 500) :=
  ⟨rfl, by decide⟩

/-- C5 counterexample: my-certificates answers a failed select with the fixed
    detail `Database error`, which does not contain the upstream error text
    `boom`. -/
theorem C5_counterexample :
    (get_my_certificates selectFailWorld (some "Bearer tok") 10 0).1 =
      .err 500 "Database error" ∧
    selectFailWorld.selectText = "boom" ∧
    containsSub "Database error" "boom" = false :=
  ⟨rfl, rfl, rfl⟩

/-- Witness for C5 (amended): a 403 upload surfaces the upstream text. -/
theorem C5_witness :
    (generate_certificate uploadFailWorld (some "Bearer tok")).1 =
      .err 500 ("Upload failed: " ++ uploadFailWorld.uploadText) ∧
    containsSub ("Upload failed: " ++ uploadFailWorld.uploadText)
      uploadFailWorld.uploadText = true := by
  exact (C5_amended uploadFailWorld (some "Bearer tok") 10 0 "SSD-500").1 rfl (by decide)

/-- Witness for C8: two successful runs differing in body extras, timestamps
    and upload status yield the same storage URL. -/
theorem C8_witness :
    respPdfUrl (generate_certificate okWorld (some "Bearer tok")).1 =
      respPdfUrl (generate_certificate okWorld2 (some "Bearer tok")).1 :=
  C8_url_deterministic okWorld okWorld2 (some "Bearer tok") (some "Bearer tok")
    rfl rfl rfl rfl rfl rfl

/-- C9 counterexample: two successful calls with identical body and token but
    the same 128-bit uuid4 draw return the same certificate id, so
    distinctness is not unconditional. -/
theorem C9_counterexample :
    isOk (generate_certificate okWorld (some "Bearer tok")).1 = true ∧
    isOk (generate_certificate okWorldLater (some "Bearer tok")).1 = true ∧
    okWorld.body = okWorldLater.body ∧
    respCertId (generate_certificate okWorld (some "Bearer tok")).1 =
      respCertId (generate_certificate okWorldLater (some "Bearer tok")).1 :=
  ⟨rfl, rfl, rfl, rfl⟩

/-- Witness for C9 (amended): draws 0 and 1 yield a valid and distinct pair
    of certificate ids. -/
theorem C9_amended_witness :
    isValidUUID (respCertId (generate_certificate okWorld (some "Bearer tok")).1) =
      true ∧
    respCertId (generate_certificate okWorld (some "Bearer tok")).1 ≠
      respCertId (generate_certificate okWorldRand1 (some "Bearer tok")).1 := by
  obtain ⟨hv, hd⟩ := C9_amended okWorld okWorldRand1 (some "Bearer tok")
    (some "Bearer tok") rfl rfl
  exact ⟨hv, hd (by decide)⟩

/-- C10 counterexample: with `certificate_metadata.certificate_id` present
    and falsy, the Certificate ID cell renders the generated id, not
    `N/A`. -/
theorem C10_counterexample :
    (pdfCells blankCertIdData "11111111-2222-4333-8444-555555555555").map
        (fun cells => cells.lookup "Certificate ID:") =
      .ok (some "11111111-2222-4333-8444-555555555555") ∧
    ("11111111-2222-4333-8444-555555555555" : String) ≠ "N/A" ∧
    (List.lookup "certificate_id"
        [("certificate_id", JValue.str "")] = some (JValue.str "") ∧
      truthy (JValue.str "") = false) :=
  ⟨rfl, by decide, rfl, rfl⟩

/-- Witness for C10 (amended) at concrete falsy inputs. -/
theorem C10_amended_witness :
    get_value (.obj [("x", .str "")]) "x" "N/A" = "N/A" ∧
    passesCountOf (.obj [("passes_performed", .list [])]) = .ok "N/A" ∧
    toolsStrOf (.obj [("tools_used", .list [])]) = .ok "N/A" :=
  ⟨C10_amended.1 _ "x" "N/A" (.str "") rfl rfl,
   C10_amended.2.2.1 _ rfl,
   C10_amended.2.2.2 _ rfl⟩
